import Mathlib

/-!
# Net_PCap: host network bridge over libpcap

A shallow embedding of `src/frontend/qt_sdl/Net_PCap.cpp` (POSIX/Linux build).

* The file-scope globals (`Adapters`, `NumAdapters`, `PCapLib`, `PCapAdapter`,
  `PCapAdapterData`) are the fields of `State`.
* Everything the file calls but does not define (the dynamic loader, libpcap,
  `getifaddrs`, the configuration table, `Net::RXEnqueue`, `Log`) is external.
  What such a call returns is read from an `Env`; that the call was made is
  recorded, in program order, in `State.trace`.
-/

namespace Net_PCap

/-! ## Data model -/

/-- Contents of a NUL-terminated `char` array: the characters before the terminator. -/
abbrev CString := List Char

/-- A `pcap_t*` that is not null. -/
abbrev Handle := Nat

/-- A `Platform::DynamicLibrary*` that is not null. -/
abbrev Lib := Nat

/-- Severity passed to `Platform::Log`. -/
inductive LogLevel where
  | Info
  | Warn
  | Error
deriving DecidableEq

/-- Header libpcap hands to a `pcap_handler` (`struct pcap_pkthdr` of `pcap/pcap.h`):
`caplen` bytes of the packet are present in the data buffer, `len` is the length the
packet had on the wire. -/
structure pcap_pkthdr where
  ts : Nat
  caplen : Nat
  len : Nat
deriving DecidableEq

/-- What `ifa_addr` points to, told apart by `sa_family`: `sockaddr_in` for `AF_INET`,
`sockaddr_ll` for `AF_PACKET` (`sockaddr_dl` for `AF_LINK` off Linux), anything else. -/
inductive sockaddr where
  | in4 (sin_addr : List Nat)
  | ll (sll_halen : Nat) (sll_addr : List Nat)
  | other (sa_family : Nat)
deriving DecidableEq

/-- One node of the list `getifaddrs` returns; `ifa_addr` may be null. -/
structure ifaddrs where
  ifa_name : CString
  ifa_addr : Option sockaddr
deriving DecidableEq

/-- Record `AdapterData` of `Net_PCap.h`: three `char[128]` buffers, `u8 MAC[6]`,
`u8 IP_v4[4]`. -/
structure AdapterData where
  DeviceName : CString
  FriendlyName : CString
  Description : CString
  MAC : List Nat
  IP_v4 : List Nat
deriving DecidableEq

/-- Calls that leave this file, with the arguments they are made with. -/
inductive Event where
  | DynamicLibrary_Load (name : String)
  | DynamicLibrary_Unload (lib : Lib)
  | Log (level : LogLevel) (msg : String)
  | pcap_findalldevs
  | pcap_freealldevs
  | getifaddrs
  | freeifaddrs
  | pcap_open_live (src : Option CString) (snaplen flags readtimeout : Int)
  | pcap_close (dev : Handle)
  | pcap_setnonblock (dev : Handle) (nonblock : Int)
  | pcap_sendpacket (dev : Handle) (data : List Nat) (len : Int)
  | pcap_dispatch (dev : Handle) (num : Int)
  | RXEnqueue (data : List Nat) (len : Nat)
deriving DecidableEq

/-- What the external calls answer during one call into this file.
`pcap_findalldevs` gives the return code and the names of the `alldevs` list in order
(an empty list is `alldevs == nullptr`); `getifaddrs` is `none` when the call fails;
`pcap_open_live` takes the `src` pointer (`none` is a null pointer) and gives `none`
for a null `pcap_t*`; `pcap_dispatch` gives the packets it hands to the callback, in
order, each as header and data buffer. -/
structure Env where
  DynamicLibrary_Load : String → Option Lib
  DynamicLibrary_LoadFunction : Lib → String → Bool
  pcap_findalldevs : Int × List CString
  getifaddrs : Option (List ifaddrs)
  LAN_Device : CString
  pcap_open_live : Option CString → Option Handle
  pcap_setnonblock : Handle → Int
  pcap_sendpacket : Handle → List Nat → Int → Int
  pcap_dispatch : Handle → Int → List (pcap_pkthdr × List Nat)

/-- The globals of the file. `Adapters` is the array the pointer refers to (`[]` for
`nullptr`; `new AdapterData[n]` is only reached with `n ≥ 1`). `PCapAdapterData` is the
index of the element it points to (`none` for a null pointer). -/
structure State where
  Adapters : List AdapterData
  NumAdapters : Nat
  PCapLib : Option Lib
  PCapAdapter : Option Handle
  PCapAdapterData : Option Nat
  trace : List Event
deriving DecidableEq

/-- State at program start: every global is zero-initialised. -/
def initial : State :=
  { Adapters := [], NumAdapters := 0, PCapLib := none, PCapAdapter := none,
    PCapAdapterData := none, trace := [] }

/-- Record an external call. -/
def emit (ev : Event) (s : State) : State :=
  { s with trace := s.trace ++ [ev] }

/-- Record several external calls, in order. -/
def emits (evs : List Event) (s : State) : State :=
  { s with trace := s.trace ++ evs }

/-! ## C library routines used by the file -/

/-- Routine `strncmp(a, b, n)`: sign of the first difference within the first `n` characters,
the terminator ordering below every character. -/
def strncmp : CString → CString → Nat → Int
  | _, _, 0 => 0
  | [], [], _ + 1 => 0
  | [], _ :: _, _ + 1 => -1
  | _ :: _, [], _ + 1 => 1
  | a :: as, b :: bs, n + 1 =>
    if a = b then strncmp as bs n else if a.toNat < b.toNat then -1 else 1

/-- Routine `strcmp(a, b)`: sign of the first difference. -/
def strcmp : CString → CString → Int
  | [], [] => 0
  | [], _ :: _ => -1
  | _ :: _, [] => 1
  | a :: as, b :: bs =>
    if a = b then strcmp as bs else if a.toNat < b.toNat then -1 else 1

/-- Statements `strncpy(dst, src, n); dst[n] = 0` into a zeroed buffer of more than `n` bytes:
the string left in `dst` is the first `n` characters of `src`. -/
def strncpy (src : CString) (n : Nat) : CString :=
  src.take n

/-- Routine `memcpy(dst, src, n)`: the first `n` bytes of `dst` become those of `src`. -/
def memcpy (dst src : List Nat) (n : Nat) : List Nat :=
  src.take n ++ dst.drop n

/-! ## Library binding -/

/-- Linux entries of `PCapLibNames`. -/
def PCapLibNames : List String := ["libpcap.so.1", "libpcap.so"]

/-- Symbols `TryLoadPCap` resolves, in the order of its `LOAD_PCAP_FUNC` lines. -/
def requiredSymbols : List String :=
  ["pcap_findalldevs", "pcap_freealldevs", "pcap_open_live", "pcap_close",
   "pcap_setnonblock", "pcap_sendpacket", "pcap_dispatch", "pcap_next"]

/-- Function `TryLoadPCap` (lines 96-108): resolve each symbol in turn, `false` at the
first that is missing. -/
def TryLoadPCap (e : Env) (lib : Lib) : Bool :=
  requiredSymbols.all (fun sym => e.DynamicLibrary_LoadFunction lib sym)

/-- The `for` loop of `InitAdapterList` over the candidate names (lines 120-134). -/
def loadLoop (e : Env) : List String → State → State
  | [], s => s
  | name :: rest, s =>
    let s1 := emit (.DynamicLibrary_Load name) s
    match e.DynamicLibrary_Load name with
    | none => loadLoop e rest s1
    | some lib =>
      if !TryLoadPCap e lib then
        loadLoop e rest (emit (.DynamicLibrary_Unload lib) s1)
      else
        { emit (.Log .Info "PCap: lib %s, init successful") s1 with PCapLib := some lib }

/-! ## Adapter directory -/

/-- Element of the array after `memset(Adapters, 0, ...)` (line 158). -/
def zeroAdapter : AdapterData :=
  { DeviceName := [], FriendlyName := [], Description := [],
    MAC := List.replicate 6 0, IP_v4 := List.replicate 4 0 }

/-- Body of the name-copy loop (lines 164-169) on a zeroed element: the device name
is cut to 127 characters, the friendly name is a copy of it. -/
def newAdapter (name : CString) : AdapterData :=
  let DeviceName := strncpy name 127
  { zeroAdapter with DeviceName := DeviceName, FriendlyName := strncpy DeviceName 127 }

/-- Body of the inner `while (curaddr)` loop (lines 252-290) for one node. -/
def joinAddr (adata : AdapterData) (curaddr : ifaddrs) : AdapterData × List Event :=
  if strcmp curaddr.ifa_name adata.DeviceName ≠ 0 then (adata, [])
  else
    match curaddr.ifa_addr with
    | none => (adata, [.Log .Error "Device (%s) does not have an address :/"])
    | some (.in4 sin_addr) => ({ adata with IP_v4 := memcpy adata.IP_v4 sin_addr 4 }, [])
    | some (.ll sll_halen sll_addr) =>
      if sll_halen ≠ 6 then (adata, [.Log .Warn "weird MAC length %d for %s"])
      else ({ adata with MAC := memcpy adata.MAC sll_addr 6 }, [])
    | some (.other _) => (adata, [])

/-- The inner `while (curaddr)` loop: every node of the list, in order. -/
def joinAdapter : List ifaddrs → AdapterData → AdapterData × List Event
  | [], adata => (adata, [])
  | curaddr :: rest, adata =>
    let r1 := joinAddr adata curaddr
    let r2 := joinAdapter rest r1.1
    (r2.1, r1.2 ++ r2.2)

/-- The outer `for (i < NumAdapters)` loop (lines 246-292). -/
def joinAll (addrs : List ifaddrs) : List AdapterData → List AdapterData × List Event
  | [] => ([], [])
  | adata :: rest =>
    let r1 := joinAdapter addrs adata
    let r2 := joinAll addrs rest
    (r1.1 :: r2.1, r1.2 ++ r2.2)

/-- Function `InitAdapterList` from `pcap_findalldevs` on (lines 143-299, POSIX
branch): count the devices into `NumAdapters`, allocate and zero that many elements,
copy the names in list order, then join with the `getifaddrs` list. -/
def enumerate (e : Env) (s : State) : Bool × State :=
  let s1 := emit .pcap_findalldevs s
  let ret := e.pcap_findalldevs.1
  let alldevs := e.pcap_findalldevs.2
  if ret < 0 || alldevs.isEmpty then
    (false, emit (.Log .Warn "PCap: no devices available") s1)
  else
    let NumAdapters := s1.NumAdapters + alldevs.length
    let s2 := { s1 with
      NumAdapters := NumAdapters,
      Adapters := alldevs.map newAdapter ++
        List.replicate (NumAdapters - alldevs.length) zeroAdapter }
    let s3 := emit .getifaddrs s2
    match e.getifaddrs with
    | none => (false, emit (.Log .Error "getifaddrs() shat itself :(") s3)
    | some addrs =>
      let r := joinAll addrs s3.Adapters
      let s4 := emits r.2 { s3 with Adapters := r.1 }
      (true, emit .pcap_freealldevs (emit .freeifaddrs s4))

/-- Function `InitAdapterList` (lines 110-300). -/
def InitAdapterList (e : Env) (s : State) : Bool × State :=
  let s0 := { s with NumAdapters := 0 }
  match s0.PCapLib with
  | none =>
    let s1 := loadLoop e PCapLibNames { s0 with PCapLib := none, PCapAdapter := none }
    match s1.PCapLib with
    | none => (false, emit (.Log .Error "PCap: init failed") s1)
    | some _ => enumerate e s1
  | some _ => enumerate e s0

/-- Entries `Adapters[0] .. Adapters[NumAdapters - 1]`: the adapter directory. -/
def directory (s : State) : List AdapterData :=
  s.Adapters.take s.NumAdapters

/-! ## Session -/

/-- The selection loop of `Init` (lines 313-317) over `Adapters[i]`, `i` counting up
from the given index: every match overwrites the choice. -/
def selectLoop (devicename : CString) : List AdapterData → Nat → Option Nat → Option Nat
  | [], _, sel => sel
  | adata :: rest, i, sel =>
    selectLoop devicename rest (i + 1)
      (if strncmp adata.DeviceName devicename 128 = 0 then some i else sel)

/-- Function `Init`, lines 304-305: forget the handle when no library is bound, close
a live one. -/
def closePrior (s : State) : State :=
  let s1 := if s.PCapLib.isNone then { s with PCapAdapter := none } else s
  match s1.PCapAdapter with
  | some dev => emit (.pcap_close dev) s1
  | none => s1

/-- Function `Init`, line 307: refresh the directory; the result of `InitAdapterList`
is dropped. -/
def refreshed (e : Env) (s : State) : State :=
  (InitAdapterList e (closePrior s)).2

/-- Function `Init`, lines 307-317: after the refresh, read the configured name and
point `PCapAdapterData` at `Adapters[0]`, then at every element whose name compares
equal. -/
def refreshAndSelect (e : Env) (s : State) : State :=
  let s1 := refreshed e s
  let first : Option Nat := if s1.Adapters.isEmpty then none else some 0
  { s1 with PCapAdapterData := selectLoop e.LAN_Device (directory s1) 0 first }

/-- Expression `PCapAdapterData->DeviceName` as passed to `pcap_open_live`; a null
`PCapAdapterData` gives a null pointer. -/
def targetName (s : State) : Option CString :=
  match s.PCapAdapterData with
  | none => none
  | some i => s.Adapters[i]?.map (fun adata => adata.DeviceName)

/-- Function `Init`, lines 319-334: open the chosen device and make the handle
nonblocking. -/
def openSession (e : Env) (s : State) : Bool × State :=
  let src := targetName s
  let s1 := emit (.pcap_open_live src 2048 1 1) s
  match e.pcap_open_live src with
  | none =>
    (false, emit (.Log .Error "PCap: failed to open adapter %s") { s1 with PCapAdapter := none })
  | some dev =>
    let s2 := emit (.pcap_setnonblock dev 1) { s1 with PCapAdapter := some dev }
    if e.pcap_setnonblock dev < 0 then
      let s3 := emit (.Log .Error "PCap: failed to set nonblocking mode") s2
      (false, { emit (.pcap_close dev) s3 with PCapAdapter := none })
    else (true, s2)

/-- Function `Init` (lines 302-335). The result of `InitAdapterList` is not looked at:
the selection and the call of `pcap_open_live` follow in every case, also when no
library is bound. That call, like every libpcap call of the file, goes through the
entry point last resolved by `TryLoadPCap`, and is answered by the environment. -/
def Init (e : Env) (s : State) : Bool × State :=
  openSession e (refreshAndSelect e s)

/-- Function `DeInit` (lines 337-350). -/
def DeInit (s : State) : State :=
  match s.PCapLib with
  | none => s
  | some lib =>
    let s1 :=
      match s.PCapAdapter with
      | some dev => { emit (.pcap_close dev) s with PCapAdapter := none }
      | none => s
    { emit (.DynamicLibrary_Unload lib) s1 with PCapLib := none }

/-- Function `RXCallback` (lines 353-356): `userdata` is not used. -/
def RXCallback (header : pcap_pkthdr) (data : List Nat) (s : State) : State :=
  emit (.RXEnqueue data header.len) s

/-- Function `SendPacket` (lines 358-372); what `pcap_sendpacket` returns is not
looked at. -/
def SendPacket (_e : Env) (data : List Nat) (len : Int) (s : State) : Int × State :=
  match s.PCapAdapter with
  | none => (0, s)
  | some dev =>
    if len > 2048 then
      (0, emit (.Log .Error "Net_SendPacket: error: packet too long (%d)") s)
    else
      (len, emit (.pcap_sendpacket dev data len) s)

/-- Function `RecvCheck` (lines 374-380): `pcap_dispatch` runs `RXCallback` on each
packet it delivers. -/
def RecvCheck (e : Env) (s : State) : State :=
  match s.PCapAdapter with
  | none => s
  | some dev =>
    (e.pcap_dispatch dev 1).foldl (fun st pkt => RXCallback pkt.1 pkt.2 st)
      (emit (.pcap_dispatch dev 1) s)

/-! ## Observations and reachable states -/

/-- The calls of `pcap_sendpacket` made so far. -/
def transmits (s : State) : List Event :=
  s.trace.filter (fun ev => match ev with
    | .pcap_sendpacket _ _ _ => true
    | _ => false)

/-- A live handle comes with a bound library: the entry points it is used through
are resolved. -/
def HandleNeedsLib (s : State) : Prop :=
  s.PCapAdapter.isSome → s.PCapLib.isSome

/-- A host with `libpcap.so.1`, devices `eth0`, `eth7`, `eth9`, where every device
opens; the configuration asks for `eth7`. -/
def hostEnv : Env :=
  { DynamicLibrary_Load := fun name => if name = "libpcap.so.1" then some 1 else none,
    DynamicLibrary_LoadFunction := fun _ _ => true,
    pcap_findalldevs := (0, ["eth0".toList, "eth7".toList, "eth9".toList]),
    getifaddrs := some [],
    LAN_Device := "eth7".toList,
    pcap_open_live := fun _ => some 5,
    pcap_setnonblock := fun _ => 0,
    pcap_sendpacket := fun _ _ _ => 0,
    pcap_dispatch := fun _ _ => [] }

/-- State after a successful `Init` on `hostEnv` from program start. -/
def readyState : State :=
  (Init hostEnv initial).2

/-- A candidate that loads and resolves every required symbol. -/
def qualifies (e : Env) (name : String) : Bool :=
  match e.DynamicLibrary_Load name with
  | some lib => TryLoadPCap e lib
  | none => false

/-- Loader calls for candidates that are tried and dropped: one load each, followed
by the unload when the load gave a library. -/
def attempts (e : Env) : List String → List Event
  | [] => []
  | name :: rest =>
    match e.DynamicLibrary_Load name with
    | none => Event.DynamicLibrary_Load name :: attempts e rest
    | some lib =>
      Event.DynamicLibrary_Load name :: Event.DynamicLibrary_Unload lib :: attempts e rest

/-- A host where `libX` loads as library 10 but lacks `pcap_sendpacket`, and `libY`
loads as library 11 with every symbol. -/
def xyEnv : Env :=
  { hostEnv with
    DynamicLibrary_Load := fun name =>
      if name = "libX" then some 10 else if name = "libY" then some 11 else none,
    DynamicLibrary_LoadFunction := fun lib sym => !(lib = 10 && sym = "pcap_sendpacket") }

/-- State after a run of refreshes, each with its own answers from outside. -/
def refreshAll (envs : List Env) (s : State) : State :=
  envs.foldl (fun st e => (InitAdapterList e st).2) s

/-- Names the capture library's enumeration reports at a refresh that ends in state
`s1`: those of the `alldevs` list, none when `pcap_findalldevs` fails, none when no
library is bound (the enumeration is then not reached). -/
def reported (e : Env) (s1 : State) : List CString :=
  if s1.PCapLib.isSome ∧ ¬ e.pcap_findalldevs.1 < 0 then e.pcap_findalldevs.2 else []

/-- A later answer of the same host: only `lo` is enumerated. -/
def shrunkEnv : Env :=
  { hostEnv with pcap_findalldevs := (0, ["lo".toList]) }

/-- As `hostEnv`, with a configured name that no device has. -/
def unmatchedEnv : Env :=
  { hostEnv with LAN_Device := "wlan3".toList }

/-- As `hostEnv`, with an empty configured name. -/
def emptyNameEnv : Env :=
  { hostEnv with LAN_Device := [] }

/-- A later answer of the same host: the enumeration reports no device. -/
def goneEnv : Env :=
  { hostEnv with pcap_findalldevs := (0, []) }

/-- Addresses (their first 4 bytes) of the IPv4 records of `addrs` whose interface
name is `name`, in list order. -/
def matchingIPv4 (name : CString) (addrs : List ifaddrs) : List (List Nat) :=
  addrs.filterMap (fun r =>
    if r.ifa_name = name then
      match r.ifa_addr with
      | some (.in4 sin_addr) => some (sin_addr.take 4)
      | _ => none
    else none)

/-- Addresses (their first 6 bytes) of the link-layer records of `addrs` with address
length 6 whose interface name is `name`, in list order. -/
def matchingMAC (name : CString) (addrs : List ifaddrs) : List (List Nat) :=
  addrs.filterMap (fun r =>
    if r.ifa_name = name then
      match r.ifa_addr with
      | some (.ll sll_halen sll_addr) => if sll_halen = 6 then some (sll_addr.take 6) else none
      | _ => none
    else none)

/-- The same node with a link-layer address length of 6. -/
def withLinkLength6 (r : ifaddrs) : ifaddrs :=
  match r.ifa_addr with
  | some (.ll _ sll_addr) => { r with ifa_addr := some (.ll 6 sll_addr) }
  | _ => r

/-- The same answers, every link-layer record reporting an address length of 6. -/
def wellFormedLink (e : Env) : Env :=
  { e with getifaddrs := e.getifaddrs.map (List.map withLinkLength6) }

/-- A host whose only device `eth0` has a link-layer record of address length 4 and
an IPv4 record 192.168.1.20. -/
def shortMacEnv : Env :=
  { hostEnv with
    pcap_findalldevs := (0, ["eth0".toList]),
    getifaddrs := some
      [{ ifa_name := "eth0".toList, ifa_addr := some (.ll 4 [170, 187, 204, 221, 0, 0, 0, 0]) },
       { ifa_name := "eth0".toList, ifa_addr := some (.in4 [192, 168, 1, 20]) }] }

/-- Records of `twoMacEnv`: two link-layer and two IPv4 records for `eth0`. -/
def twoMacAddrs : List ifaddrs :=
  [{ ifa_name := "eth0".toList, ifa_addr := some (.ll 6 [2, 0, 0, 0, 0, 1, 0, 0]) },
   { ifa_name := "eth0".toList, ifa_addr := some (.in4 [10, 0, 0, 1]) },
   { ifa_name := "eth0".toList, ifa_addr := some (.ll 6 [2, 0, 0, 0, 0, 2, 0, 0]) },
   { ifa_name := "eth0".toList, ifa_addr := some (.in4 [10, 0, 0, 2]) }]

/-- A host whose only device `eth0` has the records `twoMacAddrs`. -/
def twoMacEnv : Env :=
  { hostEnv with pcap_findalldevs := (0, ["eth0".toList]), getifaddrs := some twoMacAddrs }

/-- As `hostEnv`, with one frame waiting that was 3000 bytes on the wire: the session
is opened with snapshot length 2048, so libpcap delivers 2048 bytes of it. -/
def jumboEnv : Env :=
  { hostEnv with
    pcap_dispatch := fun _ _ =>
      [({ ts := 0, caplen := 2048, len := 3000 }, List.replicate 2048 0)] }

@[simp]
theorem emit_PCapLib (ev : Event) (s : State) : (emit ev s).PCapLib = s.PCapLib := rfl
@[simp]
theorem emit_PCapAdapter (ev : Event) (s : State) :
    (emit ev s).PCapAdapter = s.PCapAdapter := rfl
@[simp]
theorem emit_Adapters (ev : Event) (s : State) : (emit ev s).Adapters = s.Adapters := rfl
@[simp]
theorem emit_NumAdapters (ev : Event) (s : State) :
    (emit ev s).NumAdapters = s.NumAdapters := rfl
@[simp]
theorem emit_trace (ev : Event) (s : State) : (emit ev s).trace = s.trace ++ [ev] := rfl
@[simp]
theorem emits_PCapLib (evs : List Event) (s : State) :
    (emits evs s).PCapLib = s.PCapLib := rfl
@[simp]
theorem emits_PCapAdapter (evs : List Event) (s : State) :
    (emits evs s).PCapAdapter = s.PCapAdapter := rfl
@[simp]
theorem emits_Adapters (evs : List Event) (s : State) :
    (emits evs s).Adapters = s.Adapters := rfl
@[simp]
theorem emits_NumAdapters (evs : List Event) (s : State) :
    (emits evs s).NumAdapters = s.NumAdapters := rfl
@[simp]
theorem emits_trace (evs : List Event) (s : State) :
    (emits evs s).trace = s.trace ++ evs := rfl

theorem loadLoop_PCapAdapter (e : Env) (names : List String) (s : State) :
    (loadLoop e names s).PCapAdapter = s.PCapAdapter := by
  induction names generalizing s with
  | nil => rfl
  | cons name rest ih =>
    simp only [loadLoop]
    split
    · rw [ih]; rfl
    · split
      · rw [ih]; rfl
      · rfl

theorem enumerate_PCapLib (e : Env) (s : State) : (enumerate e s).2.PCapLib = s.PCapLib := by
  simp only [enumerate]
  split
  · rfl
  · split <;> rfl

theorem enumerate_PCapAdapter (e : Env) (s : State) :
    (enumerate e s).2.PCapAdapter = s.PCapAdapter := by
  simp only [enumerate]
  split
  · rfl
  · split <;> rfl

theorem InitAdapterList_HandleNeedsLib (e : Env) (s : State) :
    HandleNeedsLib (InitAdapterList e s).2 := by
  unfold HandleNeedsLib
  simp only [InitAdapterList]
  cases hl : s.PCapLib with
  | none =>
    simp only []
    split
    · simp [loadLoop_PCapAdapter]
    · simp [enumerate_PCapAdapter, loadLoop_PCapAdapter]
  | some lib =>
    simp [enumerate_PCapLib, hl]

theorem DeInit_PCapLib (s : State) : (DeInit s).PCapLib = none := by
  unfold DeInit
  split
  · assumption
  · rfl

/-! ## SendPacket -/

/-- C1: `SendPacket` with `len > 2048` returns 0 and adds no call of `pcap_sendpacket`,
whether a session is open or not, whatever the frame. -/
theorem SendPacket_oversized (e : Env) (data : List Nat) (len : Int) (s : State)
    (h : 2048 < len) :
    (SendPacket e data len s).1 = 0 ∧ transmits (SendPacket e data len s).2 = transmits s := by
  unfold SendPacket
  split
  · exact ⟨rfl, rfl⟩
  · rw [if_pos (by omega)]
    refine ⟨rfl, ?_⟩
    simp [transmits, List.filter_append]

theorem SendPacket_oversized_witness :
    (SendPacket hostEnv [1, 2, 3] 2049 readyState).1 = 0 ∧
      transmits (SendPacket hostEnv [1, 2, 3] 2049 readyState).2 = transmits readyState :=
  SendPacket_oversized hostEnv [1, 2, 3] 2049 readyState (by decide)

/-- C9: on an open session `SendPacket` with `len <= 2048` makes exactly one call of
`pcap_sendpacket`, with the caller's buffer and length, and returns `len`, whatever
`pcap_sendpacket` answers. -/
theorem SendPacket_open (e : Env) (data : List Nat) (len : Int) (s : State) (dev : Handle)
    (hopen : s.PCapAdapter = some dev) (hlen : len ≤ 2048) :
    SendPacket e data len s = (len, emit (.pcap_sendpacket dev data len) s) := by
  unfold SendPacket
  rw [hopen]
  simp only []
  rw [if_neg (by omega)]

theorem SendPacket_open_witness :
    readyState.PCapAdapter = some 5 ∧
      SendPacket hostEnv [1, 2, 3] 3 readyState =
        (3, emit (.pcap_sendpacket 5 [1, 2, 3] 3) readyState) :=
  ⟨by decide, SendPacket_open hostEnv [1, 2, 3] 3 readyState 5 (by decide) (by decide)⟩

/-! ## DeInit -/

/-- From a state in which a live handle comes with a bound library, `DeInit` calls
`pcap_close` on the handle if there is one, then `DynamicLibrary_Unload` on the library
if one is bound, makes no other call, and leaves both null; a `SendPacket` or
`RecvCheck` right after does nothing, and so does a second `DeInit`. -/
theorem DeInit_releases (s : State) (h : HandleNeedsLib s) (e : Env) (data : List Nat)
    (len : Int) :
    (DeInit s).PCapAdapter = none ∧ (DeInit s).PCapLib = none ∧
      (DeInit s).trace =
        s.trace ++ (s.PCapAdapter.map Event.pcap_close).toList ++
          (s.PCapLib.map Event.DynamicLibrary_Unload).toList ∧
      SendPacket e data len (DeInit s) = (0, DeInit s) ∧
      RecvCheck e (DeInit s) = DeInit s ∧
      DeInit (DeInit s) = DeInit s := by
  have hA : (DeInit s).PCapAdapter = none := by
    cases hl : s.PCapLib with
    | none =>
      cases ha : s.PCapAdapter with
      | none => simp [DeInit, hl, ha]
      | some dev =>
        have := h (by rw [ha]; rfl)
        rw [hl] at this; cases this
    | some lib =>
      cases ha : s.PCapAdapter <;> simp [DeInit, hl, ha]
  have hL := DeInit_PCapLib s
  have hT : (DeInit s).trace =
      s.trace ++ (s.PCapAdapter.map Event.pcap_close).toList ++
        (s.PCapLib.map Event.DynamicLibrary_Unload).toList := by
    cases hl : s.PCapLib with
    | none =>
      cases ha : s.PCapAdapter with
      | none => simp [DeInit, hl]
      | some dev =>
        have := h (by rw [ha]; rfl)
        rw [hl] at this; cases this
    | some lib =>
      cases ha : s.PCapAdapter <;> simp [DeInit, hl, ha, emit]
  refine ⟨hA, hL, hT, ?_, ?_, ?_⟩
  · simp [SendPacket, hA]
  · simp [RecvCheck, hA]
  · generalize DeInit s = t at hL
    simp [DeInit, hL]

theorem RXCallback_forwards (header : pcap_pkthdr) (data : List Nat) (s : State) :
    (RXCallback header data s).trace = s.trace ++ [Event.RXEnqueue data header.len] := rfl

/-- C7 (the code at a failing input): a 3000-byte frame captured on the session opened
with snapshot length 2048 reaches the callback as 2048 bytes of data with
`caplen = 2048` and `len = 3000`; `RecvCheck` calls `Net::RXEnqueue` once, with the
2048-byte buffer and length 3000. -/
theorem RecvCheck_truncated_frame :
    (RecvCheck jumboEnv readyState).trace =
        readyState.trace ++
          [Event.pcap_dispatch 5 1, Event.RXEnqueue (List.replicate 2048 0) 3000] ∧
      (List.replicate 2048 0).length = 2048 :=
  ⟨rfl, List.length_replicate 2048 0⟩

/-! ## Library binding -/

theorem loadLoop_emits (e : Env) (names : List String) (s : State)
    (h : ∀ n ∈ names, qualifies e n = false) :
    loadLoop e names s = emits (attempts e names) s := by
  induction names generalizing s with
  | nil => simp [loadLoop, attempts, emits]
  | cons name rest ih =>
    have hq := h name (List.mem_cons_self _ _)
    have hr : ∀ n ∈ rest, qualifies e n = false := fun n hn => h n (List.mem_cons_of_mem _ hn)
    cases hl : e.DynamicLibrary_Load name with
    | none => simp [loadLoop, attempts, hl, ih _ hr, emits, emit]
    | some lib =>
      have ht : TryLoadPCap e lib = false := by simpa [qualifies, hl] using hq
      simp [loadLoop, attempts, hl, ht, ih _ hr, emits, emit]

/-- C5: for every candidate list the loader loop binds the first candidate that loads
and resolves all eight symbols. The external calls it makes are exactly: for each
earlier candidate, in order, one load and, if that gave a library, its unload; then
the load of the bound candidate; nothing for later candidates. If no candidate
qualifies, the candidates are each tried once and the binding is as before; then
`InitAdapterList` entered without a binding returns false and leaves it unset. -/
theorem loadLoop_first_qualifying (e : Env) (s : State) :
    (∀ names : List String,
      loadLoop e names s =
        match names.find? (qualifies e) with
        | some c =>
          { emits (attempts e (names.takeWhile (fun n => !qualifies e n)) ++
              [Event.DynamicLibrary_Load c, Event.Log .Info "PCap: lib %s, init successful"]) s
            with PCapLib := e.DynamicLibrary_Load c }
        | none => emits (attempts e names) s) ∧
    (s.PCapLib = none → PCapLibNames.find? (qualifies e) = none →
      (InitAdapterList e s).1 = false ∧ (InitAdapterList e s).2.PCapLib = none) := by
  constructor
  · intro names
    induction names generalizing s with
    | nil => simp [loadLoop, attempts, emits]
    | cons name rest ih =>
      cases hl : e.DynamicLibrary_Load name with
      | none =>
        have hq : qualifies e name = false := by simp [qualifies, hl]
        cases hf : rest.find? (qualifies e) <;>
          simp [loadLoop, hl, List.find?_cons, hq, List.takeWhile_cons, attempts, ih, hf,
            emits, emit]
      | some lib =>
        cases ht : TryLoadPCap e lib with
        | false =>
          have hq : qualifies e name = false := by simp [qualifies, hl, ht]
          cases hf : rest.find? (qualifies e) <;>
            simp [loadLoop, hl, ht, List.find?_cons, hq, List.takeWhile_cons, attempts, ih, hf,
              emits, emit]
        | true =>
          have hq : qualifies e name = true := by simp [qualifies, hl, ht]
          simp [loadLoop, hl, ht, List.find?_cons, hq, List.takeWhile_cons, attempts, emits, emit]
  · intro hs hnone
    have hall : ∀ n ∈ PCapLibNames, qualifies e n = false := by
      intro n hn
      have := List.find?_eq_none.mp hnone n hn
      simpa using this
    simp [InitAdapterList, hs, loadLoop_emits e PCapLibNames _ hall]

theorem loadLoop_first_qualifying_witness :
    loadLoop xyEnv ["libX", "libY"] initial =
      { emits [Event.DynamicLibrary_Load "libX", Event.DynamicLibrary_Unload 10,
               Event.DynamicLibrary_Load "libY",
               Event.Log .Info "PCap: lib %s, init successful"] initial
        with PCapLib := some 11 } :=
  ((loadLoop_first_qualifying xyEnv initial).1 ["libX", "libY"]).trans (by decide)

/-! ## Adapter directory: sizes and names -/

theorem loadLoop_Adapters (e : Env) (names : List String) (s : State) :
    (loadLoop e names s).Adapters = s.Adapters ∧
      (loadLoop e names s).NumAdapters = s.NumAdapters := by
  induction names generalizing s with
  | nil => exact ⟨rfl, rfl⟩
  | cons name rest ih =>
    simp only [loadLoop]
    split
    · exact ⟨(ih _).1.trans rfl, (ih _).2.trans rfl⟩
    · split
      · exact ⟨(ih _).1.trans rfl, (ih _).2.trans rfl⟩
      · exact ⟨rfl, rfl⟩

theorem joinAddr_DeviceName (adata : AdapterData) (curaddr : ifaddrs) :
    (joinAddr adata curaddr).1.DeviceName = adata.DeviceName := by
  unfold joinAddr
  split
  · rfl
  · split
    · rfl
    · rfl
    · split <;> rfl
    · rfl

theorem joinAdapter_DeviceName (addrs : List ifaddrs) (adata : AdapterData) :
    (joinAdapter addrs adata).1.DeviceName = adata.DeviceName := by
  induction addrs generalizing adata with
  | nil => rfl
  | cons curaddr rest ih =>
    simp only [joinAdapter]
    rw [ih, joinAddr_DeviceName]

theorem joinAll_fst (addrs : List ifaddrs) (l : List AdapterData) :
    (joinAll addrs l).1 = l.map (fun adata => (joinAdapter addrs adata).1) := by
  induction l with
  | nil => rfl
  | cons adata rest ih => simp [joinAll, ih]

theorem joinAll_DeviceName (addrs : List ifaddrs) (l : List AdapterData) :
    (joinAll addrs l).1.map (fun adata => adata.DeviceName) =
      l.map (fun adata => adata.DeviceName) := by
  rw [joinAll_fst, List.map_map]
  apply List.map_congr_left
  intro adata _
  exact joinAdapter_DeviceName addrs adata

/-- The refresh proper, when `pcap_findalldevs` fails or gives no device. -/
theorem enumerate_none (e : Env) (s : State)
    (h : e.pcap_findalldevs.1 < 0 ∨ e.pcap_findalldevs.2 = []) :
    (enumerate e s).1 = false ∧ (enumerate e s).2.Adapters = s.Adapters ∧
      (enumerate e s).2.NumAdapters = s.NumAdapters := by
  have hc : (decide (e.pcap_findalldevs.1 < 0) || e.pcap_findalldevs.2.isEmpty) = true := by
    rcases h with h | h
    · simp [h]
    · simp [h]
  refine ⟨?_, ?_, ?_⟩ <;> simp only [enumerate, hc, if_true] <;> rfl

/-- The refresh proper, entered with `NumAdapters = 0`, when devices are reported. -/
theorem enumerate_some (e : Env) (s : State) (h0 : s.NumAdapters = 0)
    (hret : ¬ e.pcap_findalldevs.1 < 0) (hdevs : e.pcap_findalldevs.2 ≠ []) :
    (enumerate e s).2.NumAdapters = e.pcap_findalldevs.2.length ∧
      (enumerate e s).2.Adapters =
        match e.getifaddrs with
        | none => e.pcap_findalldevs.2.map newAdapter
        | some addrs => (joinAll addrs (e.pcap_findalldevs.2.map newAdapter)).1 := by
  have hc : (decide (e.pcap_findalldevs.1 < 0) || e.pcap_findalldevs.2.isEmpty) = false := by
    simp [hret, hdevs]
  simp only [enumerate, hc]
  cases hg : e.getifaddrs <;> simp [h0]

/-- What `InitAdapterList` leaves, by whether a library is bound at its end. -/
theorem InitAdapterList_cases (e : Env) (s : State) :
    ((InitAdapterList e s).2.PCapLib = none ∧ (InitAdapterList e s).1 = false ∧
        (InitAdapterList e s).2.NumAdapters = 0 ∧
        (InitAdapterList e s).2.Adapters = s.Adapters) ∨
      ((InitAdapterList e s).2.PCapLib.isSome ∧
        ∃ s0 : State, s0.NumAdapters = 0 ∧ s0.Adapters = s.Adapters ∧
          InitAdapterList e s = enumerate e s0) := by
  cases hl : s.PCapLib with
  | some lib =>
    right
    refine ⟨?_, { s with NumAdapters := 0 }, rfl, rfl, ?_⟩
    · simp [InitAdapterList, hl, enumerate_PCapLib]
    · simp [InitAdapterList, hl]
  | none =>
    cases hb : (loadLoop e PCapLibNames
        { s with NumAdapters := 0, PCapLib := none, PCapAdapter := none }).PCapLib with
    | none =>
      left
      have heq : InitAdapterList e s = (false, emit (.Log .Error "PCap: init failed")
          (loadLoop e PCapLibNames
            { s with NumAdapters := 0, PCapLib := none, PCapAdapter := none })) := by
        simp only [InitAdapterList, hl, hb]
      rw [heq]
      exact ⟨hb, rfl, (loadLoop_Adapters e _ _).2, (loadLoop_Adapters e _ _).1⟩
    | some lib =>
      right
      have heq : InitAdapterList e s = enumerate e (loadLoop e PCapLibNames
            { s with NumAdapters := 0, PCapLib := none, PCapAdapter := none }) := by
        simp only [InitAdapterList, hl, hb]
      refine ⟨?_, loadLoop e PCapLibNames
            { s with NumAdapters := 0, PCapLib := none, PCapAdapter := none },
          (loadLoop_Adapters e _ _).2, (loadLoop_Adapters e _ _).1, heq⟩
      rw [heq, enumerate_PCapLib, hb]; rfl

theorem newAdapter_DeviceName (l : List CString) :
    (l.map newAdapter).map (fun adata => adata.DeviceName) = l.map (List.take 127) := by
  rw [List.map_map]
  rfl

/-- Size, names and storage of the directory after one refresh from any state. -/
theorem InitAdapterList_result (e : Env) (s : State) :
    (InitAdapterList e s).2.NumAdapters = (reported e (InitAdapterList e s).2).length ∧
      (directory (InitAdapterList e s).2).map (fun adata => adata.DeviceName) =
        (reported e (InitAdapterList e s).2).map (List.take 127) ∧
      (reported e (InitAdapterList e s).2 ≠ [] →
        (InitAdapterList e s).2.Adapters = directory (InitAdapterList e s).2) := by
  rcases InitAdapterList_cases e s with ⟨hl, _, hn, _⟩ | ⟨hl, s0, h0, _, heq⟩
  · simp [reported, hl, hn, directory]
  · by_cases hnone : e.pcap_findalldevs.1 < 0 ∨ e.pcap_findalldevs.2 = []
    · have hr : reported e (InitAdapterList e s).2 = [] := by
        rcases hnone with h | h
        · simp [reported, h]
        · simp [reported, h]
      have hn : (InitAdapterList e s).2.NumAdapters = 0 := by
        rw [heq, (enumerate_none e s0 hnone).2.2, h0]
      simp [hr, hn, directory]
    · have hret : ¬ e.pcap_findalldevs.1 < 0 := fun h => hnone (Or.inl h)
      have hdevs : e.pcap_findalldevs.2 ≠ [] := fun h => hnone (Or.inr h)
      have hr : reported e (InitAdapterList e s).2 = e.pcap_findalldevs.2 := by
        simp [reported, hl, hret]
      obtain ⟨hn, ha⟩ := enumerate_some e s0 h0 hret hdevs
      rw [← heq] at hn ha
      have hnames : (InitAdapterList e s).2.Adapters.map (fun adata => adata.DeviceName) =
          e.pcap_findalldevs.2.map (List.take 127) := by
        rw [ha]
        cases e.getifaddrs with
        | none => exact newAdapter_DeviceName _
        | some addrs => simp only []; rw [joinAll_DeviceName]; exact newAdapter_DeviceName _
      have hlen : (InitAdapterList e s).2.Adapters.length = e.pcap_findalldevs.2.length := by
        have := congrArg List.length hnames
        simpa using this
      have hdir : directory (InitAdapterList e s).2 = (InitAdapterList e s).2.Adapters := by
        unfold directory
        rw [hn, ← hlen, List.take_length]
      rw [hr, hdir]
      exact ⟨hn, hnames, fun _ => rfl⟩

/-- C4: after the last call of any run of refreshes, from any state, `NumAdapters` is
the number of names the enumeration reported at that call (zero when it failed or
was empty), the device names of the directory are those names in order, each cut to
127 characters, and when any name was reported the array holds exactly the directory:
nothing of an earlier refresh is left. -/
theorem InitAdapterList_directory (envs : List Env) (e : Env) (s : State) :
    (refreshAll (envs ++ [e]) s).NumAdapters =
        (reported e (refreshAll (envs ++ [e]) s)).length ∧
      (directory (refreshAll (envs ++ [e]) s)).map (fun adata => adata.DeviceName) =
        (reported e (refreshAll (envs ++ [e]) s)).map (List.take 127) ∧
      (reported e (refreshAll (envs ++ [e]) s) ≠ [] →
        (refreshAll (envs ++ [e]) s).Adapters = directory (refreshAll (envs ++ [e]) s)) := by
  have h : refreshAll (envs ++ [e]) s = (InitAdapterList e (refreshAll envs s)).2 := by
    simp [refreshAll, List.foldl_append]
  rw [h]
  exact InitAdapterList_result e (refreshAll envs s)

theorem InitAdapterList_directory_witness :
    (refreshAll ([hostEnv] ++ [shrunkEnv]) initial).NumAdapters = 1 ∧
      (directory (refreshAll ([hostEnv] ++ [shrunkEnv]) initial)).map
        (fun adata => adata.DeviceName) = ["lo".toList] ∧
      (refreshAll ([hostEnv] ++ [shrunkEnv]) initial).Adapters =
        directory (refreshAll ([hostEnv] ++ [shrunkEnv]) initial) := by
  have h := InitAdapterList_directory [hostEnv] shrunkEnv initial
  have hr : reported shrunkEnv (refreshAll ([hostEnv] ++ [shrunkEnv]) initial) = ["lo".toList] := by
    decide
  rw [hr] at h
  exact ⟨h.1, h.2.1, h.2.2 (by decide)⟩

/-! ## Init: adapter selection -/

theorem strncmp_eq_zero (a b : CString) (n : Nat) :
    strncmp a b n = 0 ↔ a.take n = b.take n := by
  induction n generalizing a b with
  | zero => simp [strncmp]
  | succ n ih =>
    cases a with
    | nil => cases b <;> simp [strncmp]
    | cons x xs =>
      cases b with
      | nil => simp [strncmp]
      | cons y ys =>
        by_cases hxy : x = y
        · simp [strncmp, hxy, ih]
        · by_cases hlt : x.toNat < y.toNat <;> simp [strncmp, hxy, hlt]

theorem strcmp_eq_zero (a b : CString) : strcmp a b = 0 ↔ a = b := by
  induction a generalizing b with
  | nil => cases b <;> simp [strcmp]
  | cons x xs ih =>
    cases b with
    | nil => simp [strcmp]
    | cons y ys =>
      by_cases hxy : x = y
      · simp [strcmp, hxy, ih]
      · by_cases hlt : x.toNat < y.toNat <;> simp [strcmp, hxy, hlt]

/-- On a name of at most 127 characters `strncmp(.., .., 128)` is string equality. -/
theorem strncmp_128_exact (a b : CString) (ha : a.length ≤ 127) :
    strncmp a b 128 = 0 ↔ a = b := by
  rw [strncmp_eq_zero, List.take_of_length_le (by omega)]
  constructor
  · intro h
    have hb : b.length ≤ 127 := by
      by_contra hc
      have h1 : (b.take 128).length = min 128 b.length := List.length_take 128 b
      rw [← h] at h1
      omega
    rw [h, List.take_of_length_le (by omega)]
  · intro h
    rw [← h, List.take_of_length_le (by omega)]

/-- The selection loop either finds no matching element and keeps the choice it was
entered with, or ends at an element that matches. -/
theorem selectLoop_spec (devicename : CString) (l : List AdapterData) (i : Nat)
    (sel : Option Nat) :
    (selectLoop devicename l i sel = sel ∧
        ∀ adata ∈ l, strncmp adata.DeviceName devicename 128 ≠ 0) ∨
      (∃ k adata, selectLoop devicename l i sel = some (i + k) ∧ l[k]? = some adata ∧
        strncmp adata.DeviceName devicename 128 = 0) := by
  induction l generalizing i sel with
  | nil => left; simp [selectLoop]
  | cons adata rest ih =>
    simp only [selectLoop]
    rcases ih (i + 1)
        (if strncmp adata.DeviceName devicename 128 = 0 then some i else sel) with
      ⟨heq, hno⟩ | ⟨k, a, heq, hk, hm⟩
    · by_cases hm : strncmp adata.DeviceName devicename 128 = 0
      · right
        refine ⟨0, adata, ?_, by simp, hm⟩
        rw [heq, if_pos hm]; rfl
      · left
        refine ⟨?_, ?_⟩
        · rw [heq, if_neg hm]
        · intro a ha
          rcases List.mem_cons.mp ha with h | h
          · rw [h]; exact hm
          · exact hno a h
    · right
      refine ⟨k + 1, a, ?_, ?_, hm⟩
      · rw [heq]; congr 1; omega
      · simpa using hk

theorem openSession_trace (e : Env) (s : State) :
    ∃ evs, (openSession e s).2.trace =
      s.trace ++ Event.pcap_open_live (targetName s) 2048 1 1 :: evs := by
  simp only [openSession]
  split
  · exact ⟨[Event.Log .Error "PCap: failed to open adapter %s"], by simp [emit]⟩
  · rename_i dev _
    split
    · exact ⟨[Event.pcap_setnonblock dev 1,
        Event.Log .Error "PCap: failed to set nonblocking mode", Event.pcap_close dev],
        by simp [emit]⟩
    · exact ⟨[Event.pcap_setnonblock dev 1], by simp [emit]⟩

/-- A non-empty directory after the refresh of `Init`: a library is bound, the array
is the directory, and every device name has at most 127 characters. -/
theorem refreshed_nonempty (e : Env) (s : State) (hdir : directory (refreshed e s) ≠ []) :
    (refreshed e s).PCapLib.isSome ∧ (refreshed e s).Adapters = directory (refreshed e s) ∧
      ∀ adata ∈ directory (refreshed e s), adata.DeviceName.length ≤ 127 := by
  obtain ⟨_, hnames, hstore⟩ := InitAdapterList_result e (closePrior s)
  have hrep : reported e (refreshed e s) ≠ [] := by
    intro h
    apply hdir
    have h2 : (directory (refreshed e s)).map (fun adata => adata.DeviceName) = [] := by
      unfold refreshed
      rw [hnames]
      unfold refreshed at h
      rw [h]; rfl
    exact List.map_eq_nil_iff.mp h2
  refine ⟨?_, hstore hrep, ?_⟩
  · by_contra hl
    apply hrep
    simp [reported, hl]
  · intro adata ha
    have hm : adata.DeviceName ∈
        (directory (refreshed e s)).map (fun adata => adata.DeviceName) :=
      List.mem_map_of_mem _ ha
    unfold refreshed at hm
    rw [hnames] at hm
    obtain ⟨n, _, hn⟩ := List.mem_map.mp hm
    rw [← hn, List.length_take]
    omega

/-- C2: when the directory built by the refresh of `Init` is not empty, the one call
of `pcap_open_live` that `Init` makes names a device of that directory: the configured
`LAN.Device` string if some descriptor's device name equals it, and otherwise (no
descriptor has that name, which includes an empty configured name that no device
bears) the device name of the first descriptor. -/
theorem Init_selects (e : Env) (s : State) (hdir : directory (refreshed e s) ≠ []) :
    ∃ name r evs, Init e s = r ∧
      r.2.trace = (refreshed e s).trace ++ Event.pcap_open_live (some name) 2048 1 1 :: evs ∧
      ((∃ adata ∈ directory (refreshed e s), adata.DeviceName = e.LAN_Device) →
        name = e.LAN_Device) ∧
      ((∀ adata ∈ directory (refreshed e s), adata.DeviceName ≠ e.LAN_Device) →
        (directory (refreshed e s)).head?.map (fun adata => adata.DeviceName) = some name) := by
  obtain ⟨hlib, hstore, hlen⟩ := refreshed_nonempty e s hdir
  obtain ⟨a0, rest, hcons⟩ := List.exists_cons_of_ne_nil hdir
  have hne : (refreshed e s).Adapters.isEmpty = false := by
    rw [hstore, hcons]; rfl
  have hinit : Init e s = openSession e (refreshAndSelect e s) := rfl
  have htrace : (refreshAndSelect e s).trace = (refreshed e s).trace := rfl
  have htarget : ∀ k, (refreshAndSelect e s).PCapAdapterData = some k →
      targetName (refreshAndSelect e s) =
        (directory (refreshed e s))[k]?.map (fun adata => adata.DeviceName) := by
    intro k hk
    have hA : (refreshAndSelect e s).Adapters = directory (refreshed e s) := hstore
    simp only [targetName, hk, hA]
  have hsel : (refreshAndSelect e s).PCapAdapterData =
      selectLoop e.LAN_Device (directory (refreshed e s)) 0 (some 0) := by
    simp only [refreshAndSelect, hne]
    rfl
  obtain ⟨evs, hevs⟩ := openSession_trace e (refreshAndSelect e s)
  rcases selectLoop_spec e.LAN_Device (directory (refreshed e s)) 0 (some 0) with
    ⟨heq, hno⟩ | ⟨k, adata, heq, hk, hm⟩
  · refine ⟨a0.DeviceName, _, evs, hinit, ?_, ?_, ?_⟩
    · rw [hevs, htarget 0 (hsel.trans heq), htrace, hcons]; simp
    · rintro ⟨adata, ha, hname⟩
      exact absurd ((strncmp_128_exact _ _ (hlen adata ha)).mpr hname) (hno adata ha)
    · intro _
      rw [hcons]; rfl
  · have hmem : adata ∈ directory (refreshed e s) := List.getElem?_mem hk
    have hname : adata.DeviceName = e.LAN_Device :=
      (strncmp_128_exact _ _ (hlen adata hmem)).mp hm
    refine ⟨e.LAN_Device, _, evs, hinit, ?_, ?_, ?_⟩
    · rw [hevs, htarget (0 + k) (hsel.trans heq), htrace]
      simp [hk, hname]
    · intro _; rfl
    · intro hall
      exact absurd hname (hall adata hmem)

theorem Init_selects_witness :
    directory (refreshed hostEnv initial) ≠ [] ∧
    ∃ name r evs, Init hostEnv initial = r ∧
      r.2.trace = (refreshed hostEnv initial).trace ++
        Event.pcap_open_live (some name) 2048 1 1 :: evs ∧
      ((∃ adata ∈ directory (refreshed hostEnv initial),
          adata.DeviceName = hostEnv.LAN_Device) → name = hostEnv.LAN_Device) ∧
      ((∀ adata ∈ directory (refreshed hostEnv initial),
          adata.DeviceName ≠ hostEnv.LAN_Device) →
        (directory (refreshed hostEnv initial)).head?.map (fun adata => adata.DeviceName) =
          some name) :=
  ⟨by decide, Init_selects hostEnv initial (by decide)⟩

/-- With devices `eth0`, `eth7`, `eth9`, a configured `eth7` opens `eth7`; a configured
name no device has, or an empty one, opens `eth0`. -/
theorem scenario_configured_device :
    targetName (refreshAndSelect hostEnv initial) = some "eth7".toList ∧
      targetName (refreshAndSelect unmatchedEnv initial) = some "eth0".toList ∧
      targetName (refreshAndSelect emptyNameEnv initial) = some "eth0".toList := by
  decide

/-! ## Init: empty directory -/

/-- When `pcap_open_live` gives no handle, or gives one that `pcap_setnonblock`
rejects, `Init` returns false and leaves `PCapAdapter` null. -/
theorem Init_open_fails (e : Env) (s : State)
    (hfail : ∀ dev, e.pcap_open_live (targetName (refreshAndSelect e s)) = some dev →
      e.pcap_setnonblock dev < 0) :
    (Init e s).1 = false ∧ (Init e s).2.PCapAdapter = none := by
  simp only [Init, openSession]
  split
  · exact ⟨rfl, rfl⟩
  · rename_i dev hdev
    rw [if_pos (hfail dev hdev)]
    exact ⟨rfl, rfl⟩

/-- C3 (the code at a failing input): after a successful `Init` on a host with
`eth0`, `eth7`, `eth9`, a second `Init` at which the enumeration reports no device
leaves `NumAdapters = 0`, still calls `pcap_open_live`, on the `eth0` left in the array
by the earlier refresh, and returns true with the session open. -/
theorem Init_empty_directory_opens :
    (reported goneEnv (refreshed goneEnv readyState) = [] ∧
      directory (refreshed goneEnv readyState) = []) ∧
    ((Init goneEnv readyState).1, (Init goneEnv readyState).2.PCapAdapter,
        (Init goneEnv readyState).2.NumAdapters, targetName (Init goneEnv readyState).2) =
      (true, some 5, 0, some "eth0".toList) := by
  decide

/-! ## Adapter directory: the address join -/

theorem memcpy_of_le (dst src : List Nat) (n : Nat) (h : dst.length ≤ n) :
    memcpy dst src n = src.take n := by
  simp [memcpy, List.drop_eq_nil_of_le h]

theorem getLast?_cons_getD {α : Type} (x d : α) (m : List α) :
    (x :: m).getLast?.getD d = m.getLast?.getD x := by
  simp [List.getLast?_cons]

/-- One node of the join, by cases on the node. -/
theorem joinAddr_fst (adata : AdapterData) (r : ifaddrs) :
    (joinAddr adata r).1 =
      if r.ifa_name = adata.DeviceName then
        match r.ifa_addr with
        | some (.in4 sin_addr) => { adata with IP_v4 := memcpy adata.IP_v4 sin_addr 4 }
        | some (.ll sll_halen sll_addr) =>
          if sll_halen = 6 then { adata with MAC := memcpy adata.MAC sll_addr 6 } else adata
        | _ => adata
      else adata := by
  by_cases hname : r.ifa_name = adata.DeviceName
  · rcases hr : r.ifa_addr with _ | sa
    · simp [joinAddr, strcmp_eq_zero, hname, hr]
    · cases sa with
      | in4 x => simp [joinAddr, strcmp_eq_zero, hname, hr]
      | ll n x => by_cases hn : n = 6 <;> simp [joinAddr, strcmp_eq_zero, hname, hr, hn]
      | other f => simp [joinAddr, strcmp_eq_zero, hname, hr]
  · simp [joinAddr, strcmp_eq_zero, hname]

/-- The join of one adapter leaves in `IP_v4` the address of the last IPv4 record that
bears its name, and in `MAC` the address of the last length-6 link-layer record that
bears its name; a field without such a record is as before. -/
theorem joinAdapter_fields (addrs : List ifaddrs) (adata : AdapterData)
    (hip : adata.IP_v4.length ≤ 4) (hmac : adata.MAC.length ≤ 6) :
    (joinAdapter addrs adata).1.IP_v4 =
        (matchingIPv4 adata.DeviceName addrs).getLast?.getD adata.IP_v4 ∧
      (joinAdapter addrs adata).1.MAC =
        (matchingMAC adata.DeviceName addrs).getLast?.getD adata.MAC := by
  induction addrs generalizing adata with
  | nil => simp [joinAdapter, matchingIPv4, matchingMAC]
  | cons r rest ih =>
    have hdn := joinAddr_DeviceName adata r
    have hfst := joinAddr_fst adata r
    simp only [joinAdapter]
    by_cases hname : r.ifa_name = adata.DeviceName
    · rcases hr : r.ifa_addr with _ | sa
      · simp only [hname, hr, if_true] at hfst
        have h := ih (joinAddr adata r).1 (by rw [hfst]; exact hip) (by rw [hfst]; exact hmac)
        rw [hdn] at h
        rw [h.1, h.2, hfst]
        simp [matchingIPv4, matchingMAC, List.filterMap_cons, hname, hr]
      · cases sa with
        | in4 x =>
          simp only [hname, hr, if_true] at hfst
          have hip1 : (joinAddr adata r).1.IP_v4 = x.take 4 := by
            rw [hfst]; exact memcpy_of_le _ _ _ hip
          have h := ih (joinAddr adata r).1
            (by rw [hip1, List.length_take]; omega) (by rw [hfst]; exact hmac)
          rw [hdn] at h
          rw [h.1, h.2, hip1, hfst]
          simp [matchingIPv4, matchingMAC, List.filterMap_cons, hname, hr, List.getLast?_cons]
        | ll n x =>
          by_cases hn : n = 6
          · simp only [hname, hr, hn, if_true] at hfst
            have hmac1 : (joinAddr adata r).1.MAC = x.take 6 := by
              rw [hfst]; exact memcpy_of_le _ _ _ hmac
            have h := ih (joinAddr adata r).1 (by rw [hfst]; exact hip)
              (by rw [hmac1, List.length_take]; omega)
            rw [hdn] at h
            rw [h.1, h.2, hmac1, hfst]
            simp [matchingIPv4, matchingMAC, List.filterMap_cons, hname, hr, hn,
              List.getLast?_cons]
          · simp only [hname, hr, hn, if_true, if_false] at hfst
            have h := ih (joinAddr adata r).1 (by rw [hfst]; exact hip) (by rw [hfst]; exact hmac)
            rw [hdn] at h
            rw [h.1, h.2, hfst]
            simp [matchingIPv4, matchingMAC, List.filterMap_cons, hname, hr, hn]
        | other f =>
          simp only [hname, hr, if_true] at hfst
          have h := ih (joinAddr adata r).1 (by rw [hfst]; exact hip) (by rw [hfst]; exact hmac)
          rw [hdn] at h
          rw [h.1, h.2, hfst]
          simp [matchingIPv4, matchingMAC, List.filterMap_cons, hname, hr]
    · simp only [hname, if_false] at hfst
      have h := ih (joinAddr adata r).1 (by rw [hfst]; exact hip) (by rw [hfst]; exact hmac)
      rw [hdn] at h
      rw [h.1, h.2, hfst]
      simp [matchingIPv4, matchingMAC, List.filterMap_cons, hname]

/-- The directory entry of the `i`-th enumerated device after a refresh that reaches
the join. -/
theorem InitAdapterList_entry (e : Env) (s : State) (i : Nat) (name : CString)
    (addrs : List ifaddrs) (hlib : (InitAdapterList e s).2.PCapLib.isSome)
    (hret : ¬ e.pcap_findalldevs.1 < 0) (hname : e.pcap_findalldevs.2[i]? = some name)
    (haddrs : e.getifaddrs = some addrs) :
    (directory (InitAdapterList e s).2)[i]? = some (joinAdapter addrs (newAdapter name)).1 := by
  have hdevs : e.pcap_findalldevs.2 ≠ [] := by
    intro h; rw [h] at hname; simp at hname
  rcases InitAdapterList_cases e s with ⟨hl, _⟩ | ⟨_, s0, h0, _, heq⟩
  · rw [hl] at hlib; cases hlib
  · obtain ⟨hn, ha⟩ := enumerate_some e s0 h0 hret hdevs
    rw [← heq, haddrs] at ha
    rw [← heq] at hn
    simp only [] at ha
    have hlen : (InitAdapterList e s).2.Adapters.length = e.pcap_findalldevs.2.length := by
      rw [ha, joinAll_fst]; simp
    unfold directory
    rw [hn, ← hlen, List.take_length, ha, joinAll_fst]
    simp [hname]

theorem loadLoop_wellFormedLink (e : Env) (names : List String) (s : State) :
    loadLoop (wellFormedLink e) names s = loadLoop e names s := by
  induction names generalizing s with
  | nil => rfl
  | cons name rest ih =>
    have ht : ∀ lib, TryLoadPCap (wellFormedLink e) lib = TryLoadPCap e lib := fun _ => rfl
    have hd : (wellFormedLink e).DynamicLibrary_Load name = e.DynamicLibrary_Load name := rfl
    simp only [loadLoop, ht, hd, ih]

theorem InitAdapterList_wellFormedLink_PCapLib (e : Env) (s : State) :
    (InitAdapterList (wellFormedLink e) s).2.PCapLib = (InitAdapterList e s).2.PCapLib := by
  cases hl : s.PCapLib with
  | some lib => simp [InitAdapterList, hl, enumerate_PCapLib]
  | none =>
    simp only [InitAdapterList, hl, loadLoop_wellFormedLink]
    split
    · rfl
    · rw [enumerate_PCapLib, enumerate_PCapLib]

theorem matchingIPv4_withLinkLength6 (name : CString) (addrs : List ifaddrs) :
    matchingIPv4 name (addrs.map withLinkLength6) = matchingIPv4 name addrs := by
  induction addrs with
  | nil => rfl
  | cons r rest ih =>
    unfold matchingIPv4 at ih ⊢
    rw [List.map_cons, List.filterMap_cons, List.filterMap_cons, ih]
    rcases r with ⟨rn, ra⟩
    rcases ra with _ | sa
    · rfl
    · cases sa <;> simp [withLinkLength6]

theorem matchingMAC_nil (name : CString) (addrs : List ifaddrs)
    (hll : ∀ r ∈ addrs, ∀ n x, r.ifa_name = name → r.ifa_addr = some (.ll n x) → n ≠ 6) :
    matchingMAC name addrs = [] := by
  unfold matchingMAC
  rw [List.filterMap_eq_nil_iff]
  intro r hr
  by_cases hname : r.ifa_name = name
  · rcases ha : r.ifa_addr with _ | sa
    · simp [hname]
    · cases sa with
      | in4 x => simp [hname]
      | ll n x => simp [hname, hll r hr n x hname ha]
      | other f => simp [hname]
  · simp [hname]

/-- C8: when every link-layer record that bears an adapter's name has an address
length other than 6, the refresh leaves that adapter's MAC all zero; its device name
is the enumerated name (cut to 127 characters) and its IPv4 field is the address of
the last IPv4 record that bears its name, both the same as in the refresh where the
link-layer records report length 6. -/
theorem join_bad_link_length (e : Env) (s : State) (i : Nat) (name : CString)
    (addrs : List ifaddrs) (hlib : (InitAdapterList e s).2.PCapLib.isSome)
    (hret : ¬ e.pcap_findalldevs.1 < 0) (hname : e.pcap_findalldevs.2[i]? = some name)
    (haddrs : e.getifaddrs = some addrs)
    (hll : ∀ r ∈ addrs, ∀ n x,
      r.ifa_name = name.take 127 → r.ifa_addr = some (.ll n x) → n ≠ 6) :
    ∃ adata fixed,
      (directory (InitAdapterList e s).2)[i]? = some adata ∧
      (directory (InitAdapterList (wellFormedLink e) s).2)[i]? = some fixed ∧
      adata.MAC = [0, 0, 0, 0, 0, 0] ∧
      adata.DeviceName = name.take 127 ∧ fixed.DeviceName = adata.DeviceName ∧
      adata.IP_v4 = (matchingIPv4 (name.take 127) addrs).getLast?.getD [0, 0, 0, 0] ∧
      fixed.IP_v4 = adata.IP_v4 := by
  have hlib2 : (InitAdapterList (wellFormedLink e) s).2.PCapLib.isSome := by
    rw [InitAdapterList_wellFormedLink_PCapLib]; exact hlib
  have haddrs2 : (wellFormedLink e).getifaddrs = some (addrs.map withLinkLength6) := by
    simp [wellFormedLink, haddrs]
  have h1 := InitAdapterList_entry e s i name addrs hlib hret hname haddrs
  have h2 := InitAdapterList_entry (wellFormedLink e) s i name (addrs.map withLinkLength6)
    hlib2 hret hname haddrs2
  have hf := joinAdapter_fields addrs (newAdapter name) (by simp [newAdapter, zeroAdapter])
    (by simp [newAdapter, zeroAdapter])
  have hf2 := joinAdapter_fields (addrs.map withLinkLength6) (newAdapter name)
    (by simp [newAdapter, zeroAdapter]) (by simp [newAdapter, zeroAdapter])
  have hdn : (newAdapter name).DeviceName = name.take 127 := rfl
  rw [hdn] at hf hf2
  refine ⟨_, _, h1, h2, ?_, ?_, ?_, ?_, ?_⟩
  · rw [hf.2, matchingMAC_nil _ _ hll]; rfl
  · rw [joinAdapter_DeviceName]; rfl
  · rw [joinAdapter_DeviceName, joinAdapter_DeviceName]
  · rw [hf.1]; rfl
  · rw [hf2.1, hf.1, matchingIPv4_withLinkLength6]

theorem join_bad_link_length_witness :
    ∃ adata fixed,
      (directory (InitAdapterList shortMacEnv initial).2)[0]? = some adata ∧
      (directory (InitAdapterList (wellFormedLink shortMacEnv) initial).2)[0]? = some fixed ∧
      adata.MAC = [0, 0, 0, 0, 0, 0] ∧
      adata.DeviceName = "eth0".toList.take 127 ∧ fixed.DeviceName = adata.DeviceName ∧
      adata.IP_v4 =
        (matchingIPv4 ("eth0".toList.take 127)
          [{ ifa_name := "eth0".toList,
             ifa_addr := some (.ll 4 [170, 187, 204, 221, 0, 0, 0, 0]) },
           { ifa_name := "eth0".toList,
             ifa_addr := some (.in4 [192, 168, 1, 20]) }]).getLast?.getD [0, 0, 0, 0] ∧
      fixed.IP_v4 = adata.IP_v4 :=
  join_bad_link_length shortMacEnv initial 0 "eth0".toList _ (by decide) (by decide) rfl rfl
    (by
      intro r hr n x _ ha
      simp only [List.mem_cons, List.mem_singleton, List.not_mem_nil, or_false] at hr
      rcases hr with rfl | rfl
      · simp only [Option.some.injEq, sockaddr.ll.injEq] at ha
        omega
      · simp at ha)

/-- A link-layer record of length 4 leaves the MAC zero and the IPv4 address is taken;
with length 6 the first six bytes are copied. -/
theorem scenario_short_link_address :
    (directory (InitAdapterList shortMacEnv initial).2).map
        (fun adata => (adata.DeviceName, adata.MAC, adata.IP_v4)) =
      [("eth0".toList, [0, 0, 0, 0, 0, 0], [192, 168, 1, 20])] ∧
    (directory (InitAdapterList (wellFormedLink shortMacEnv) initial).2).map
        (fun adata => (adata.DeviceName, adata.MAC, adata.IP_v4)) =
      [("eth0".toList, [170, 187, 204, 221, 0, 0], [192, 168, 1, 20])] := by
  decide

/-- C10 as stated fails: with two length-6 link-layer records for `eth0`, the first
with address 02:00:00:00:00:01 and a later one with 02:00:00:00:00:02, the MAC field
ends as the later address. -/
theorem join_mac_first_wins_fails :
    (matchingMAC "eth0".toList twoMacAddrs).head? = some [2, 0, 0, 0, 0, 1] ∧
      (directory (InitAdapterList twoMacEnv initial).2).map (fun adata => adata.MAC) =
        [[2, 0, 0, 0, 0, 2]] ∧
      ¬ ((directory (InitAdapterList twoMacEnv initial).2).map (fun adata => some adata.MAC) =
        [(matchingMAC "eth0".toList twoMacAddrs).head?]) := by
  decide

/-- C10 as amended: the records are processed in list order and both fields are
last-wins: after a refresh that reaches the join, an adapter's IPv4 field is the
address of the last IPv4 record that bears its name and its MAC field is the address
of the last length-6 link-layer record that bears its name (zero when there is no
such record). -/
theorem join_last_wins (e : Env) (s : State) (i : Nat) (name : CString)
    (addrs : List ifaddrs) (hlib : (InitAdapterList e s).2.PCapLib.isSome)
    (hret : ¬ e.pcap_findalldevs.1 < 0) (hname : e.pcap_findalldevs.2[i]? = some name)
    (haddrs : e.getifaddrs = some addrs) :
    ∃ adata, (directory (InitAdapterList e s).2)[i]? = some adata ∧
      adata.DeviceName = name.take 127 ∧
      adata.IP_v4 = (matchingIPv4 adata.DeviceName addrs).getLast?.getD [0, 0, 0, 0] ∧
      adata.MAC = (matchingMAC adata.DeviceName addrs).getLast?.getD [0, 0, 0, 0, 0, 0] := by
  have h1 := InitAdapterList_entry e s i name addrs hlib hret hname haddrs
  have hf := joinAdapter_fields addrs (newAdapter name) (by simp [newAdapter, zeroAdapter])
    (by simp [newAdapter, zeroAdapter])
  refine ⟨_, h1, ?_, ?_, ?_⟩
  · rw [joinAdapter_DeviceName]; rfl
  · rw [hf.1, joinAdapter_DeviceName]; rfl
  · rw [hf.2, joinAdapter_DeviceName]; rfl

theorem join_last_wins_witness :
    ∃ adata, (directory (InitAdapterList twoMacEnv initial).2)[0]? = some adata ∧
      adata.DeviceName = "eth0".toList.take 127 ∧
      adata.IP_v4 = (matchingIPv4 adata.DeviceName twoMacAddrs).getLast?.getD [0, 0, 0, 0] ∧
      adata.MAC =
        (matchingMAC adata.DeviceName twoMacAddrs).getLast?.getD [0, 0, 0, 0, 0, 0] :=
  join_last_wins twoMacEnv initial 0 "eth0".toList twoMacAddrs (by decide) (by decide) rfl rfl

end Net_PCap
